import Mathlib

/-!
# Verification of the MCP session-correlated protocol bridge

Shallow embedding of `src/local_proxy/mcp_proxy.py`: the dual-transport
MCP bridge.  The external world (the SSE backend, the submission endpoint
and the `json` library) is modelled by a `Backend` structure; the control
flow of `send_sse_message` and `proxy_mcp` is translated statement by
statement.

Modelling conventions:
- A Python `dict` parsed from JSON is a `Json` value; `"id" not in message`
  becomes `hasKey message "id" = false`.
- `httpx`'s `raise_for_status` raises unless the status code is 2xx; an
  exception raised anywhere is an `Err` value propagated in `Except`.
- `json.loads` is the behaviour of an external library, so it is a field
  `loads : String → Except String Json` of the `Backend`; `.error` models
  the `JSONDecodeError` exception, the carried string models `str(e)`.
- The POST submission task created with `asyncio.create_task` runs
  concurrently with the event loop, but its only interaction with the
  bridge is the status code observed when the task is awaited (the event
  list is fixed independently of it), so it is modelled by recording the
  pending status at `create_task` time and raising, if at all, at `await`.
-/

namespace McpProxy

/-- JSON values, the payload language of the bridge (Python dicts/lists
obtained from `request.json()` and `json.loads`). -/
inductive Json where
  | null
  | bool (b : Bool)
  | num (n : Int)
  | str (s : String)
  | arr (elems : List Json)
  | obj (fields : List (String × Json))

mutual

/-- Python `json.dumps` with its default separators. -/
def dumps : Json → String
  | .null => "null"
  | .bool true => "true"
  | .bool false => "false"
  | .num n => toString n
  | .str s => "\"" ++ s ++ "\""
  | .arr elems => "[" ++ dumpsList elems ++ "]"
  | .obj fields => "\x7b" ++ dumpsFields fields ++ "\x7d"

/-- Serialize the elements of a JSON array, comma separated. -/
def dumpsList : List Json → String
  | [] => ""
  | [x] => dumps x
  | x :: xs => dumps x ++ ", " ++ dumpsList xs

/-- Serialize the fields of a JSON object, comma separated. -/
def dumpsFields : List (String × Json) → String
  | [] => ""
  | [(k, v)] => "\"" ++ k ++ "\": " ++ dumps v
  | (k, v) :: fs => "\"" ++ k ++ "\": " ++ dumps v ++ ", " ++ dumpsFields fs

end

/-- Python `key in message` on a dict: true iff the object has the key.
On non-dict values (`in` would test list/string membership) no key is
found, which agrees with Python for the message shapes the bridge sees. -/
def hasKey (j : Json) (key : String) : Bool :=
  match j with
  | .obj fields => fields.any (fun kv => kv.1 == key)
  | _ => false

/-- One Server-Sent Event as delivered by `httpx_sse`: an event type tag
and a data payload. -/
structure SseEvent where
  event : String
  data : String
deriving DecidableEq, Repr

/-- The exceptions `send_sse_message` can raise. -/
inductive Err where
  /-- `event_source.response.raise_for_status()` failed: the GET of
  `/sse` returned a non-2xx status. -/
  | sseConnect (status : Nat)
  /-- `resp.raise_for_status()` inside `post_message` failed: the
  submission POST returned a non-2xx status. -/
  | httpStatus (status : Nat)
  /-- `json.loads(event.data)` raised `JSONDecodeError`; the string is
  the library's error text. -/
  | jsonDecode (text : String)
  /-- `Exception("Did not receive endpoint from SSE server")`. -/
  | noEndpoint
  /-- `Exception("Did not receive response from SSE server")`. -/
  | noResponse
deriving DecidableEq, Repr

/-- Python `str(e)` for each exception.  The two `Exception(...)` texts
are the source's literals; the library exceptions' texts are modelled as
a deterministic rendering of the data they carry. -/
def Err.toText : Err → String
  | .sseConnect status => "HTTP status error " ++ toString status
  | .httpStatus status => "HTTP status error " ++ toString status
  | .jsonDecode text => text
  | .noEndpoint => "Did not receive endpoint from SSE server"
  | .noResponse => "Did not receive response from SSE server"

/-- The external world of one `send_sse_message` call: the status of the
initial GET of `/sse`, the events the backend pushes on that stream, the
status code the backend returns for a POST to a given URL, and the
behaviour of the `json.loads` library routine. -/
structure Backend where
  sseStatus : Nat
  events : List SseEvent
  post : String → Nat
  loads : String → Except String Json

/-- `httpx.Response.is_success`: a 2xx status.  `raise_for_status`
raises exactly when this is false. -/
def is2xx (status : Nat) : Bool :=
  decide (200 ≤ status) && decide (status < 300)

/-- How the `async for` loop over the SSE events exits
(`mcp_proxy.py` lines 47-75). -/
inductive LoopOut where
  /-- The notification path hit `return` inside the loop (line 66);
  `rest` are the stream events never read. -/
  | earlyReturn (value : Json) (rest : List SseEvent)
  /-- An exception was raised inside the loop (`await post_message()`
  for a notification, or `json.loads`); `rest` are the events never
  read. -/
  | raised (e : Err) (rest : List SseEvent)
  /-- `break` on a `message` event (line 75) with `response_data` set to
  the parsed payload; `rest` are the events never read. -/
  | broke (endpointUrl : Option String) (responseData : Json)
      (postTask : Option Nat) (rest : List SseEvent)
  /-- The stream ended; `response_data` is still `None`. -/
  | exhausted (endpointUrl : Option String) (postTask : Option Nat)

/-- The `async for event in event_source.aiter_sse()` loop, lines 47-75.
State threaded through: `endpointUrl` (`endpoint_url`), `postTask`
(`post_task`, holding the submission's eventual status once the task is
created).  `base` is `MCP_SERVER_BASE_URL`. -/
def sseLoop (B : Backend) (base : String) (is_notification : Bool)
    (endpointUrl : Option String) (postTask : Option Nat) :
    List SseEvent → LoopOut
  | [] => .exhausted endpointUrl postTask
  | e :: rest =>
    if e.event == "endpoint" && endpointUrl.isNone then
      let url := base ++ e.data
      if is_notification then
        -- `await post_message()` then `return \x7b"status": "accepted"\x7d`
        let s := B.post url
        if is2xx s then
          .earlyReturn (Json.obj [("status", Json.str "accepted")]) rest
        else
          .raised (.httpStatus s) rest
      else
        -- `post_task = asyncio.create_task(post_message())`
        sseLoop B base is_notification (some url) (some (B.post url)) rest
    else if e.event == "message" then
      -- `response_data = json.loads(event.data); break`
      match B.loads e.data with
      | .ok d => .broke endpointUrl d postTask rest
      | .error t => .raised (.jsonDecode t) rest
    else
      sseLoop B base is_notification endpointUrl postTask rest

/-- Lines 77-87: `await post_task` if it was started, then the two
protocol checks, then `return response_data`. -/
def sseFinish (is_notification : Bool) (endpointUrl : Option String)
    (responseData : Option Json) (postTask : Option Nat) : Except Err Json :=
  let afterAwait : Except Err Json :=
    if endpointUrl.isNone then .error .noEndpoint
    else if !is_notification && responseData.isNone then .error .noResponse
    else .ok (responseData.getD Json.null)
  match postTask with
  | some s => if !is2xx s then .error (.httpStatus s) else afterAwait
  | none => afterAwait

/-- `send_sse_message(message)` against backend `B` with
`MCP_SERVER_BASE_URL = base`: `.ok` is the returned dict, `.error` the
exception propagated to the caller. -/
def send_sse_message (B : Backend) (base : String) (message : Json) :
    Except Err Json :=
  if !is2xx B.sseStatus then .error (.sseConnect B.sseStatus)
  else
    let is_notification := !hasKey message "id"
    match sseLoop B base is_notification none none B.events with
    | .earlyReturn v _ => .ok v
    | .raised e _ => .error e
    | .broke endpointUrl d postTask _ =>
      sseFinish is_notification endpointUrl (some d) postTask
    | .exhausted endpointUrl postTask =>
      sseFinish is_notification endpointUrl none postTask

/-- The FastAPI `Response` the `/mcp` handler builds. -/
structure HttpResponse where
  content : String
  status_code : Nat
  media_type : String
deriving DecidableEq, Repr

/-- The backend's reply to the direct POST of stream mode: content,
status code, and the optional `content-type` header. -/
structure StreamBackend where
  content : String
  status_code : Nat
  contentType : Option String

/-- `MCP_SERVER_BASE_URL = os.environ.get("MCP_SERVER_BASE_URL",
"http://localhost:8001")`. -/
def MCP_SERVER_BASE_URL (env : String → Option String) : String :=
  (env "MCP_SERVER_BASE_URL").getD "http://localhost:8001"

/-- `MCP_TRANSPORT = os.environ.get("MCP_TRANSPORT", "sse")`. -/
def MCP_TRANSPORT (env : String → Option String) : String :=
  (env "MCP_TRANSPORT").getD "sse"

/-- The `/mcp` handler `proxy_mcp`, lines 89-123.  `transport` is
`MCP_TRANSPORT`, `base` is `MCP_SERVER_BASE_URL`, `SB` is the backend's
reply to the direct POST used in stream mode, `B` the session-mode
world, `body` the parsed request body. -/
def proxy_mcp (transport base : String) (SB : StreamBackend)
    (B : Backend) (body : Json) : HttpResponse :=
  if transport == "stream" then
    { content := SB.content
      status_code := SB.status_code
      media_type := SB.contentType.getD "application/json" }
  else
    match send_sse_message B base body with
    | .ok result =>
      { content := dumps result
        status_code := 200
        media_type := "application/json" }
    | .error e =>
      { content := dumps (Json.obj [("error", Json.str e.toText)])
        status_code := 500
        media_type := "application/json" }

/-! ## Loop lemmas shared by the claims -/

/-- Events that are neither `endpoint` nor `message` typed are skipped by
the loop without changing its state. -/
theorem sseLoop_append_skip (B : Backend) (base : String) (n : Bool)
    (u : Option String) (t : Option Nat) :
    ∀ pre rest, (∀ x ∈ pre, x.event ≠ "endpoint" ∧ x.event ≠ "message") →
      sseLoop B base n u t (pre ++ rest) = sseLoop B base n u t rest := by
  intro pre
  induction pre with
  | nil => intro rest _; rfl
  | cons e es ih =>
    intro rest h
    have h1 : (e.event == "endpoint") = false := by
      simpa using (h e (List.mem_cons_self e es)).1
    have h2 : (e.event == "message") = false := by
      simpa using (h e (List.mem_cons_self e es)).2
    simp only [List.cons_append, sseLoop, h1, h2, Bool.false_and, if_false]
    exact ih rest (fun x hx => h x (List.mem_cons_of_mem e hx))

/-- Once the endpoint URL is recorded, every event that is not `message`
typed is skipped (a second `endpoint` event is ignored, line 49). -/
theorem sseLoop_append_skip_active (B : Backend) (base : String) (n : Bool)
    (url : String) (t : Option Nat) :
    ∀ pre rest, (∀ x ∈ pre, x.event ≠ "message") →
      sseLoop B base n (some url) t (pre ++ rest) =
        sseLoop B base n (some url) t rest := by
  intro pre
  induction pre with
  | nil => intro rest _; rfl
  | cons e es ih =>
    intro rest h
    have h2 : (e.event == "message") = false := by
      simpa using h e (List.mem_cons_self e es)
    simp only [List.cons_append, sseLoop, Option.isNone_some, Bool.and_false,
      if_false, h2]
    exact ih rest (fun x hx => h x (List.mem_cons_of_mem e hx))

/-- Over an endpoint-free event list the loop can only exhaust the
stream, break on a parsed `message` event, or raise a decode error; the
endpoint URL and the submission task stay unset. -/
theorem sseLoop_no_endpoint (B : Backend) (base : String) (n : Bool) :
    ∀ events, (∀ x ∈ events, x.event ≠ "endpoint") →
      sseLoop B base n none none events = .exhausted none none ∨
      (∃ d r, sseLoop B base n none none events = .broke none d none r) ∨
      (∃ t r, sseLoop B base n none none events = .raised (.jsonDecode t) r) := by
  intro events
  induction events with
  | nil => intro _; exact Or.inl rfl
  | cons e es ih =>
    intro h
    have h1 : (e.event == "endpoint") = false := by
      simpa using h e (List.mem_cons_self e es)
    by_cases h2 : e.event = "message"
    · cases hload : B.loads e.data with
      | ok d =>
        refine Or.inr (Or.inl ⟨d, es, ?_⟩)
        simp [sseLoop, h1, h2, hload]
      | error t =>
        refine Or.inr (Or.inr ⟨t, es, ?_⟩)
        simp [sseLoop, h1, h2, hload]
    · have h2' : (e.event == "message") = false := by simpa using h2
      have : sseLoop B base n none none (e :: es) =
          sseLoop B base n none none es := by
        simp [sseLoop, h1, h2']
      rw [this]
      exact ih (fun x hx => h x (List.mem_cons_of_mem e hx))

/-- If a `message` event arrives before any `endpoint` event, the loop
exits at or before that event with the endpoint URL still unset. -/
theorem sseLoop_message_blocks (B : Backend) (base : String) (n : Bool) :
    ∀ pre m rest, (∀ x ∈ pre, x.event ≠ "endpoint") → m.event = "message" →
      (∃ d r, sseLoop B base n none none (pre ++ m :: rest) =
        .broke none d none r) ∨
      (∃ t r, sseLoop B base n none none (pre ++ m :: rest) =
        .raised (.jsonDecode t) r) := by
  intro pre
  induction pre with
  | nil =>
    intro m rest _ hm
    cases hload : B.loads m.data with
    | ok d => exact Or.inl ⟨d, rest, by simp [sseLoop, hm, hload]⟩
    | error t => exact Or.inr ⟨t, rest, by simp [sseLoop, hm, hload]⟩
  | cons e es ih =>
    intro m rest h hm
    have h1 : (e.event == "endpoint") = false := by
      simpa using h e (List.mem_cons_self e es)
    by_cases h2 : e.event = "message"
    · cases hload : B.loads e.data with
      | ok d =>
        exact Or.inl ⟨d, es ++ m :: rest, by simp [sseLoop, h1, h2, hload]⟩
      | error t =>
        exact Or.inr ⟨t, es ++ m :: rest, by simp [sseLoop, h1, h2, hload]⟩
    · have h2' : (e.event == "message") = false := by simpa using h2
      have hstep : sseLoop B base n none none (e :: (es ++ m :: rest)) =
          sseLoop B base n none none (es ++ m :: rest) := by
        simp [sseLoop, h1, h2']
      rw [List.cons_append, hstep]
      exact ih m rest (fun x hx => h x (List.mem_cons_of_mem e hx)) hm

/-- Over an endpoint-free event list whose first `message` event (if
any) has a parseable payload, the loop either exhausts the stream or
breaks on that parsed event; it never raises. -/
theorem sseLoop_no_endpoint_first_message_ok (B : Backend) (base : String)
    (n : Bool) :
    ∀ events, (∀ x ∈ events, x.event ≠ "endpoint") →
      (∀ pre m rest, events = pre ++ m :: rest →
        (∀ x ∈ pre, x.event ≠ "message") → m.event = "message" →
        ∃ d, B.loads m.data = .ok d) →
      sseLoop B base n none none events = .exhausted none none ∨
      ∃ d r, sseLoop B base n none none events = .broke none d none r := by
  intro events
  induction events with
  | nil => intro _ _; exact Or.inl rfl
  | cons e es ih =>
    intro h hfirst
    have h1 : (e.event == "endpoint") = false := by
      simpa using h e (List.mem_cons_self e es)
    by_cases h2 : e.event = "message"
    · obtain ⟨d, hd⟩ := hfirst [] e es rfl (by simp) h2
      exact Or.inr ⟨d, es, by simp [sseLoop, h1, h2, hd]⟩
    · have h2' : (e.event == "message") = false := by simpa using h2
      have hstep : sseLoop B base n none none (e :: es) =
          sseLoop B base n none none es := by
        simp [sseLoop, h1, h2']
      rw [hstep]
      refine ih (fun x hx => h x (List.mem_cons_of_mem e hx)) ?_
      intro pre m rest hev hpre hm
      exact hfirst (e :: pre) m rest (by rw [hev, List.cons_append])
        (by intro x hx; rcases List.mem_cons.mp hx with hx | hx
            · rw [hx]; exact h2
            · exact hpre x hx) hm

/-- Over an endpoint-free event list the loop never consults the
submission function. -/
theorem sseLoop_post_irrelevant (B : Backend) (p : String → Nat)
    (base : String) (n : Bool) (u : Option String) (t : Option Nat) :
    ∀ events, (∀ x ∈ events, x.event ≠ "endpoint") →
      sseLoop { B with post := p } base n u t events =
        sseLoop B base n u t events := by
  intro events
  induction events generalizing u t with
  | nil => intro _; rfl
  | cons e es ih =>
    intro h
    have h1 : (e.event == "endpoint") = false := by
      simpa using h e (List.mem_cons_self e es)
    by_cases h2 : e.event = "message"
    · cases hload : B.loads e.data with
      | ok d => simp [sseLoop, h1, h2, hload]
      | error s => simp [sseLoop, h1, h2, hload]
    · have h2' : (e.event == "message") = false := by simpa using h2
      simp only [sseLoop, h1, h2', Bool.false_and, if_false]
      exact ih u t (fun x hx => h x (List.mem_cons_of_mem e hx))

/-! ## Claims -/

/-- C1: in session mode, for a message without an id key (a
notification), if the first endpoint-or-message typed event of the
stream is an `endpoint` event and the POST to the derived endpoint
returns a 2xx status, then `send_sse_message` returns exactly the object
with field `status` set to `accepted`, and the loop exits right at the
endpoint event, leaving every later stream event unread. -/
theorem notification_accepted_without_reading_stream
    (B : Backend) (base : String) (message : Json)
    (pre rest : List SseEvent) (e : SseEvent)
    (hmsg : hasKey message "id" = false)
    (hsse : is2xx B.sseStatus = true)
    (hpre : ∀ x ∈ pre, x.event ≠ "endpoint" ∧ x.event ≠ "message")
    (hev : B.events = pre ++ e :: rest)
    (hend : e.event = "endpoint")
    (hpost : is2xx (B.post (base ++ e.data)) = true) :
    send_sse_message B base message =
      .ok (Json.obj [("status", Json.str "accepted")]) ∧
    sseLoop B base true none none B.events =
      .earlyReturn (Json.obj [("status", Json.str "accepted")]) rest := by
  have hloop : sseLoop B base true none none B.events =
      .earlyReturn (Json.obj [("status", Json.str "accepted")]) rest := by
    rw [hev, sseLoop_append_skip B base true none none pre (e :: rest) hpre]
    simp [sseLoop, hend, hpost]
  refine ⟨?_, hloop⟩
  simp [send_sse_message, hsse, hmsg, hloop]

/-- Concrete scenario for C1: a `ping` notification, one endpoint event,
submission status 202. -/
def pingBackend : Backend :=
  { sseStatus := 200
    events := [⟨"endpoint", "/messages/?session_id=abc"⟩]
    post := fun _ => 202
    loads := fun _ => .error "unused" }

theorem notification_accepted_witness :
    send_sse_message pingBackend "http://localhost:8001"
        (Json.obj [("method", Json.str "ping")]) =
      .ok (Json.obj [("status", Json.str "accepted")]) ∧
    sseLoop pingBackend "http://localhost:8001" true none none
        pingBackend.events =
      .earlyReturn (Json.obj [("status", Json.str "accepted")]) [] :=
  notification_accepted_without_reading_stream pingBackend
    "http://localhost:8001" (Json.obj [("method", Json.str "ping")])
    [] [] ⟨"endpoint", "/messages/?session_id=abc"⟩
    rfl rfl (by simp) rfl rfl rfl

/-- C2: in session mode, for a message with an id key (a request), if
the submission POST returns a non-2xx status, `send_sse_message` raises
the submission error (so `/mcp` answers 500 with an error body) even
though a well-formed `message` event was already captured before the
submission task was awaited; the captured payload is not returned. -/
theorem submission_failure_overrides_captured_response
    (B : Backend) (base : String) (SB : StreamBackend) (message : Json)
    (pre mid rest : List SseEvent) (e m : SseEvent) (d : Json)
    (hmsg : hasKey message "id" = true)
    (hsse : is2xx B.sseStatus = true)
    (hpre : ∀ x ∈ pre, x.event ≠ "endpoint" ∧ x.event ≠ "message")
    (hev : B.events = pre ++ e :: (mid ++ m :: rest))
    (hend : e.event = "endpoint")
    (hmid : ∀ x ∈ mid, x.event ≠ "message")
    (hm : m.event = "message")
    (hload : B.loads m.data = .ok d)
    (hpost : is2xx (B.post (base ++ e.data)) = false) :
    send_sse_message B base message =
      .error (.httpStatus (B.post (base ++ e.data))) ∧
    proxy_mcp "sse" base SB B message =
      { content := dumps (Json.obj [("error",
          Json.str (Err.toText (.httpStatus (B.post (base ++ e.data)))))])
        status_code := 500
        media_type := "application/json" } := by
  have hloop : sseLoop B base false none none B.events =
      .broke (some (base ++ e.data)) d (some (B.post (base ++ e.data))) rest := by
    rw [hev, sseLoop_append_skip B base false none none pre _ hpre]
    have hstep : sseLoop B base false none none (e :: (mid ++ m :: rest)) =
        sseLoop B base false (some (base ++ e.data))
          (some (B.post (base ++ e.data))) (mid ++ m :: rest) := by
      simp [sseLoop, hend]
    rw [hstep, sseLoop_append_skip_active B base false _ _ mid _ hmid]
    simp [sseLoop, hm, hload]
  have hsend : send_sse_message B base message =
      .error (.httpStatus (B.post (base ++ e.data))) := by
    simp [send_sse_message, hsse, hmsg, hloop, sseFinish, hpost]
  exact ⟨hsend, by simp [proxy_mcp, hsend]⟩

/-- Concrete scenario for C2: a request, endpoint then a well-formed
response event, but the submission POST returns 404. -/
def failedPostBackend : Backend :=
  { sseStatus := 200
    events := [⟨"endpoint", "/messages/?session_id=s1"⟩,
               ⟨"message", "42"⟩]
    post := fun _ => 404
    loads := fun _ => .ok (Json.num 42) }

theorem submission_failure_witness :
    send_sse_message failedPostBackend "http://localhost:8001"
        (Json.obj [("id", Json.num 1)]) =
      .error (.httpStatus 404) ∧
    proxy_mcp "sse" "http://localhost:8001"
        ⟨"", 0, none⟩ failedPostBackend (Json.obj [("id", Json.num 1)]) =
      { content := dumps (Json.obj [("error",
          Json.str (Err.toText (.httpStatus 404)))])
        status_code := 500
        media_type := "application/json" } :=
  submission_failure_overrides_captured_response failedPostBackend
    "http://localhost:8001" ⟨"", 0, none⟩ (Json.obj [("id", Json.num 1)])
    [] [] [] ⟨"endpoint", "/messages/?session_id=s1"⟩ ⟨"message", "42"⟩
    (Json.num 42) rfl rfl (by simp) rfl rfl (by simp) rfl rfl rfl

/-- C3: in session mode, for a request, `send_sse_message` returns
exactly the parsed payload of the first `message` typed event, and the
loop breaks there: every later event — in particular any further
`message` event in `rest` — is never read. -/
theorem first_message_event_is_the_response
    (B : Backend) (base : String) (message : Json)
    (pre mid rest : List SseEvent) (e m : SseEvent) (d : Json)
    (hmsg : hasKey message "id" = true)
    (hsse : is2xx B.sseStatus = true)
    (hpre : ∀ x ∈ pre, x.event ≠ "endpoint" ∧ x.event ≠ "message")
    (hev : B.events = pre ++ e :: (mid ++ m :: rest))
    (hend : e.event = "endpoint")
    (hmid : ∀ x ∈ mid, x.event ≠ "message")
    (hm : m.event = "message")
    (hload : B.loads m.data = .ok d)
    (hpost : is2xx (B.post (base ++ e.data)) = true) :
    send_sse_message B base message = .ok d ∧
    sseLoop B base false none none B.events =
      .broke (some (base ++ e.data)) d (some (B.post (base ++ e.data))) rest := by
  have hloop : sseLoop B base false none none B.events =
      .broke (some (base ++ e.data)) d (some (B.post (base ++ e.data))) rest := by
    rw [hev, sseLoop_append_skip B base false none none pre _ hpre]
    have hstep : sseLoop B base false none none (e :: (mid ++ m :: rest)) =
        sseLoop B base false (some (base ++ e.data))
          (some (B.post (base ++ e.data))) (mid ++ m :: rest) := by
      simp [sseLoop, hend]
    rw [hstep, sseLoop_append_skip_active B base false _ _ mid _ hmid]
    simp [sseLoop, hm, hload]
  refine ⟨?_, hloop⟩
  simp [send_sse_message, hsse, hmsg, hloop, sseFinish, hpost]

/-- Concrete scenario for C3: two `message` events on the stream; the
returned payload is the first one and the second is left unread. -/
def twoResponsesBackend : Backend :=
  { sseStatus := 200
    events := [⟨"endpoint", "/messages/?session_id=s2"⟩,
               ⟨"message", "first"⟩,
               ⟨"message", "second"⟩]
    post := fun _ => 202
    loads := fun s => if s == "first" then .ok (Json.str "first")
      else .ok (Json.str "second") }

theorem first_message_event_witness :
    send_sse_message twoResponsesBackend "http://localhost:8001"
        (Json.obj [("id", Json.num 1)]) = .ok (Json.str "first") ∧
    sseLoop twoResponsesBackend "http://localhost:8001" false none none
        twoResponsesBackend.events =
      .broke (some "http://localhost:8001/messages/?session_id=s2")
        (Json.str "first") (some 202) [⟨"message", "second"⟩] :=
  first_message_event_is_the_response twoResponsesBackend
    "http://localhost:8001" (Json.obj [("id", Json.num 1)])
    [] [] [⟨"message", "second"⟩]
    ⟨"endpoint", "/messages/?session_id=s2"⟩ ⟨"message", "first"⟩
    (Json.str "first") rfl rfl (by simp) rfl rfl (by simp) rfl rfl rfl

/-- A stream that emits only a well-formed `message` event and never an
`endpoint` event (used by C4 and C7). -/
def messageOnlyBackend : Backend :=
  { sseStatus := 200
    events := [⟨"message", "99"⟩]
    post := fun _ => 202
    loads := fun _ => .ok (Json.num 99) }

/-- Counterexample backend for C4: the stream never emits an `endpoint`
event, but it does emit a `message` event whose payload does not parse. -/
def malformedNoEndpointBackend : Backend :=
  { sseStatus := 200
    events := [⟨"message", "not json"⟩]
    post := fun _ => 202
    loads := fun _ => .error "Expecting value" }

/-- C4 counterexample: with no `endpoint` event but a malformed
`message` event on the stream, the call fails with the JSON decode
error, not with the `Did not receive endpoint` error the claim
promises. -/
theorem no_endpoint_error_text_counterexample :
    send_sse_message malformedNoEndpointBackend "http://localhost:8001"
        (Json.obj [("id", Json.num 1)]) =
      .error (.jsonDecode "Expecting value") ∧
    (Except.error (Err.jsonDecode "Expecting value") : Except Err Json) ≠
      .error .noEndpoint := by
  refine ⟨rfl, fun h => ?_⟩
  cases h

/-- C4 amended: if the stream terminates without ever emitting an
`endpoint` event, the call fails and the submission POST is never
attempted (the outcome does not depend on the POST function at all);
the error is the `no endpoint` error whenever the first `message` event
of the stream, if there is one, has a parseable payload, and it is the
JSON decode error when the first `message` event's payload is
unparseable. -/
theorem no_endpoint_fails_without_posting
    (B : Backend) (base : String) (message : Json)
    (hsse : is2xx B.sseStatus = true)
    (hnoend : ∀ x ∈ B.events, x.event ≠ "endpoint") :
    ((∀ pre m rest, B.events = pre ++ m :: rest →
        (∀ x ∈ pre, x.event ≠ "message") → m.event = "message" →
        ∃ d, B.loads m.data = .ok d) →
      send_sse_message B base message = .error .noEndpoint) ∧
    (∀ pre m rest t, B.events = pre ++ m :: rest →
        (∀ x ∈ pre, x.event ≠ "message") → m.event = "message" →
        B.loads m.data = .error t →
      send_sse_message B base message = .error (.jsonDecode t)) ∧
    ∀ p, send_sse_message { B with post := p } base message =
      send_sse_message B base message := by
  refine ⟨?_, ?_, ?_⟩
  · intro hfirst
    rcases sseLoop_no_endpoint_first_message_ok B base (!hasKey message "id")
      B.events hnoend hfirst with h | ⟨d, r, h⟩
    · simp [send_sse_message, hsse, h, sseFinish]
    · simp [send_sse_message, hsse, h, sseFinish]
  · intro pre m rest t hev hpremsg hm hload
    have hpre : ∀ x ∈ pre, x.event ≠ "endpoint" ∧ x.event ≠ "message" := by
      intro x hx
      exact ⟨hnoend x (by rw [hev]; exact List.mem_append_left _ hx),
        hpremsg x hx⟩
    have hloop : sseLoop B base (!hasKey message "id") none none B.events =
        .raised (.jsonDecode t) rest := by
      rw [hev, sseLoop_append_skip B base (!hasKey message "id")
        none none pre _ hpre]
      simp [sseLoop, hm, hload]
    simp [send_sse_message, hsse, hloop]
  · intro p
    have hloop := sseLoop_post_irrelevant B p base (!hasKey message "id")
      none none B.events hnoend
    simp only [send_sse_message]
    rw [hloop]

theorem no_endpoint_fails_witness :
    send_sse_message messageOnlyBackend "http://localhost:8001"
        (Json.obj [("method", Json.str "ping")]) = .error .noEndpoint ∧
    send_sse_message malformedNoEndpointBackend "http://localhost:8001"
        (Json.obj [("method", Json.str "ping")]) =
      .error (.jsonDecode "Expecting value") ∧
    ∀ p, send_sse_message { malformedNoEndpointBackend with post := p }
        "http://localhost:8001" (Json.obj [("method", Json.str "ping")]) =
      send_sse_message malformedNoEndpointBackend "http://localhost:8001"
        (Json.obj [("method", Json.str "ping")]) := by
  have h1 := no_endpoint_fails_without_posting messageOnlyBackend
    "http://localhost:8001" (Json.obj [("method", Json.str "ping")])
    rfl (by simp [messageOnlyBackend])
  have h2 := no_endpoint_fails_without_posting malformedNoEndpointBackend
    "http://localhost:8001" (Json.obj [("method", Json.str "ping")])
    rfl (by simp [malformedNoEndpointBackend])
  exact ⟨h1.1 (fun _ _ _ _ _ _ => ⟨Json.num 99, rfl⟩),
    h2.2.1 [] ⟨"message", "not json"⟩ [] "Expecting value" rfl
      (by simp) rfl rfl,
    h2.2.2⟩

/-- C5: in stream mode, the caller receives exactly the backend's
status code, body, and content-type, untransformed. -/
theorem direct_forward_verbatim (base : String) (SB : StreamBackend)
    (B : Backend) (body : Json) (c : String)
    (hct : SB.contentType = some c) :
    proxy_mcp "stream" base SB B body =
      { content := SB.content, status_code := SB.status_code,
        media_type := c } := by
  simp [proxy_mcp, hct]

theorem direct_forward_witness :
    proxy_mcp "stream" "http://localhost:8001"
        ⟨"\x7b\"ok\": true\x7d", 207, some "text/plain"⟩
        pingBackend Json.null =
      { content := "\x7b\"ok\": true\x7d", status_code := 207,
        media_type := "text/plain" } :=
  direct_forward_verbatim "http://localhost:8001"
    ⟨"\x7b\"ok\": true\x7d", 207, some "text/plain"⟩
    pingBackend Json.null "text/plain" rfl

/-- C6: in session mode every exception of the handshake becomes an
HTTP 500 whose body is a JSON object with an `error` field; and a
response event with unparseable payload makes the handshake raise the
decode error rather than succeed, so no malformed payload is ever
returned as a success. -/
theorem handshake_errors_become_500
    (B : Backend) (base : String) (SB : StreamBackend) (body : Json) :
    (∀ e, send_sse_message B base body = .error e →
      proxy_mcp "sse" base SB B body =
        { content := dumps (Json.obj [("error", Json.str e.toText)])
          status_code := 500
          media_type := "application/json" }) ∧
    (∀ pre mid rest e m t,
      hasKey body "id" = true →
      is2xx B.sseStatus = true →
      (∀ x ∈ pre, x.event ≠ "endpoint" ∧ x.event ≠ "message") →
      B.events = pre ++ e :: (mid ++ m :: rest) →
      e.event = "endpoint" →
      (∀ x ∈ mid, x.event ≠ "message") →
      m.event = "message" →
      B.loads m.data = .error t →
      send_sse_message B base body = .error (.jsonDecode t)) := by
  constructor
  · intro e hsend
    simp [proxy_mcp, hsend]
  · intro pre mid rest e m t hmsg hsse hpre hev hend hmid hm hload
    have hloop : sseLoop B base false none none B.events =
        .raised (.jsonDecode t) rest := by
      rw [hev, sseLoop_append_skip B base false none none pre _ hpre]
      have hstep : sseLoop B base false none none (e :: (mid ++ m :: rest)) =
          sseLoop B base false (some (base ++ e.data))
            (some (B.post (base ++ e.data))) (mid ++ m :: rest) := by
        simp [sseLoop, hend]
      rw [hstep, sseLoop_append_skip_active B base false _ _ mid _ hmid]
      simp [sseLoop, hm, hload]
    simp [send_sse_message, hsse, hmsg, hloop]

/-- Concrete scenario for C6: an endpoint event followed by a response
event whose payload does not parse. -/
def malformedResponseBackend : Backend :=
  { sseStatus := 200
    events := [⟨"endpoint", "/messages/?session_id=s3"⟩,
               ⟨"message", "\x7bbroken"⟩]
    post := fun _ => 202
    loads := fun _ => .error "Expecting property name" }

theorem handshake_errors_witness :
    proxy_mcp "sse" "http://localhost:8001" ⟨"", 0, none⟩
        malformedResponseBackend (Json.obj [("id", Json.num 7)]) =
      { content := dumps (Json.obj [("error",
          Json.str (Err.toText (.jsonDecode "Expecting property name")))])
        status_code := 500
        media_type := "application/json" } ∧
    send_sse_message malformedResponseBackend "http://localhost:8001"
        (Json.obj [("id", Json.num 7)]) =
      .error (.jsonDecode "Expecting property name") := by
  have h := handshake_errors_become_500 malformedResponseBackend
    "http://localhost:8001" ⟨"", 0, none⟩ (Json.obj [("id", Json.num 7)])
  have hsend := h.2 [] [] [] ⟨"endpoint", "/messages/?session_id=s3"⟩
    ⟨"message", "\x7bbroken"⟩ "Expecting property name"
    rfl rfl (by simp) rfl rfl (by simp) rfl rfl
  exact ⟨h.1 _ hsend, hsend⟩

/-- C7: the endpoint event is observed before submission is attempted —
on an endpoint-free stream the outcome is independent of the POST
function — and a `message` event that precedes every `endpoint` event is
never accepted as the call's successful result: the call errors. -/
theorem endpoint_precedes_submission
    (B : Backend) (base : String) (message : Json) :
    ((∀ x ∈ B.events, x.event ≠ "endpoint") →
      ∀ p, send_sse_message { B with post := p } base message =
        send_sse_message B base message) ∧
    (∀ pre m rest, (∀ x ∈ pre, x.event ≠ "endpoint") →
      m.event = "message" → B.events = pre ++ m :: rest →
      ∃ e, send_sse_message B base message = .error e) := by
  constructor
  · intro hnoend p
    have hloop := sseLoop_post_irrelevant B p base (!hasKey message "id")
      none none B.events hnoend
    simp only [send_sse_message]
    rw [hloop]
  · intro pre m rest hpre hm hev
    by_cases hsse : is2xx B.sseStatus = true
    · rcases sseLoop_message_blocks B base (!hasKey message "id")
        pre m rest hpre hm with ⟨d, r, h⟩ | ⟨t, r, h⟩
      · rw [← hev] at h
        exact ⟨.noEndpoint, by simp [send_sse_message, hsse, h, sseFinish]⟩
      · rw [← hev] at h
        exact ⟨.jsonDecode t, by simp [send_sse_message, hsse, h]⟩
    · have h0 : is2xx B.sseStatus = false := by simpa using hsse
      exact ⟨.sseConnect B.sseStatus, by simp [send_sse_message, h0]⟩

theorem endpoint_precedes_submission_witness :
    (∀ p, send_sse_message { messageOnlyBackend with post := p }
        "http://localhost:8001" (Json.obj [("id", Json.num 1)]) =
      send_sse_message messageOnlyBackend "http://localhost:8001"
        (Json.obj [("id", Json.num 1)])) ∧
    ∃ e, send_sse_message messageOnlyBackend "http://localhost:8001"
        (Json.obj [("id", Json.num 1)]) = .error e := by
  have h := endpoint_precedes_submission messageOnlyBackend
    "http://localhost:8001" (Json.obj [("id", Json.num 1)])
  exact ⟨h.1 (by simp [messageOnlyBackend]),
    h.2 [] ⟨"message", "99"⟩ [] (by simp) rfl rfl⟩

/-- C8: for a request, if the endpoint event arrived and the submission
succeeded but the stream ends without any `message` event, the call
fails with the `no response` error rather than returning a success. -/
theorem stream_end_without_response_fails
    (B : Backend) (base : String) (message : Json)
    (pre rest : List SseEvent) (e : SseEvent)
    (hmsg : hasKey message "id" = true)
    (hsse : is2xx B.sseStatus = true)
    (hpre : ∀ x ∈ pre, x.event ≠ "endpoint" ∧ x.event ≠ "message")
    (hev : B.events = pre ++ e :: rest)
    (hend : e.event = "endpoint")
    (hrest : ∀ x ∈ rest, x.event ≠ "message")
    (hpost : is2xx (B.post (base ++ e.data)) = true) :
    send_sse_message B base message = .error .noResponse := by
  have hloop : sseLoop B base false none none B.events =
      .exhausted (some (base ++ e.data)) (some (B.post (base ++ e.data))) := by
    rw [hev, sseLoop_append_skip B base false none none pre _ hpre]
    have hstep : sseLoop B base false none none (e :: rest) =
        sseLoop B base false (some (base ++ e.data))
          (some (B.post (base ++ e.data))) rest := by
      simp [sseLoop, hend]
    rw [hstep]
    have hskip := sseLoop_append_skip_active B base false (base ++ e.data)
      (some (B.post (base ++ e.data))) rest [] hrest
    simpa [sseLoop] using hskip
  simp [send_sse_message, hsse, hmsg, hloop, sseFinish, hpost]

/-- Concrete scenario for C8: endpoint only, then the stream ends. -/
def silentBackend : Backend :=
  { sseStatus := 200
    events := [⟨"endpoint", "/messages/?session_id=s4"⟩]
    post := fun _ => 202
    loads := fun _ => .error "unused" }

theorem stream_end_without_response_witness :
    send_sse_message silentBackend "http://localhost:8001"
        (Json.obj [("id", Json.num 1)]) = .error .noResponse :=
  stream_end_without_response_fails silentBackend "http://localhost:8001"
    (Json.obj [("id", Json.num 1)]) [] []
    ⟨"endpoint", "/messages/?session_id=s4"⟩
    rfl rfl (by simp) rfl rfl (by simp) rfl

/-- C9: routing compares the configured transport with the exact string
`stream`; any other value — not only `sse` — takes the session path (the
response is then independent of the stream-mode backend reply), and
`sse` is the default when the environment variable is unset. -/
theorem transport_selection
    (t base : String) (SB SB2 : StreamBackend) (B : Backend) (body : Json)
    (ht : t ≠ "stream") :
    proxy_mcp t base SB B body = proxy_mcp "sse" base SB2 B body ∧
    MCP_TRANSPORT (fun _ => none) = "sse" := by
  have h1 : (t == "stream") = false := by simpa using ht
  exact ⟨by simp [proxy_mcp, h1], rfl⟩

theorem transport_selection_witness :
    proxy_mcp "websocket" "http://localhost:8001" ⟨"a", 1, none⟩
        silentBackend (Json.obj [("id", Json.num 1)]) =
      proxy_mcp "sse" "http://localhost:8001" ⟨"b", 2, some "text/csv"⟩
        silentBackend (Json.obj [("id", Json.num 1)]) ∧
    MCP_TRANSPORT (fun _ => none) = "sse" :=
  transport_selection "websocket" "http://localhost:8001"
    ⟨"a", 1, none⟩ ⟨"b", 2, some "text/csv"⟩ silentBackend
    (Json.obj [("id", Json.num 1)]) (by decide)

/-- C10: in session mode every successful call answers HTTP 200 with
content-type `application/json`, whatever status the submission POST
returned; the handler's status in session mode is always 200 or 500, so
the backend's submission status is never mirrored to the caller. -/
theorem session_mode_success_is_200
    (B : Backend) (base : String) (SB : StreamBackend) (body : Json) :
    (∀ r, send_sse_message B base body = .ok r →
      proxy_mcp "sse" base SB B body =
        { content := dumps r
          status_code := 200
          media_type := "application/json" }) ∧
    ((proxy_mcp "sse" base SB B body).status_code = 200 ∨
      (proxy_mcp "sse" base SB B body).status_code = 500) := by
  constructor
  · intro r h
    simp [proxy_mcp, h]
  · cases h : send_sse_message B base body with
    | ok r => exact Or.inl (by simp [proxy_mcp, h])
    | error e => exact Or.inr (by simp [proxy_mcp, h])

theorem session_mode_success_witness :
    proxy_mcp "sse" "http://localhost:8001" ⟨"", 0, none⟩ pingBackend
        (Json.obj [("method", Json.str "ping")]) =
      { content := dumps (Json.obj [("status", Json.str "accepted")])
        status_code := 200
        media_type := "application/json" } :=
  (session_mode_success_is_200 pingBackend "http://localhost:8001"
    ⟨"", 0, none⟩ (Json.obj [("method", Json.str "ping")])).1
    (Json.obj [("status", Json.str "accepted")]) rfl

end McpProxy
